import Mathlib

/-!
Verification of the "anoo" community front end.

Each namespace embeds one module of the repository:

* `PostApi`     — `public/services/post/postApi.js` (validation, query building)
* `ImageApi`    — `public/services/image/imageApi.js` (AI generation limit)
* `FeedPage`    — the feed page controller (`loadPosts`)
* `ProfilePage` — the profile page controller (`loadMyPosts`)
* `PostDetail`  — `public/pages/post/post-detail.js` (`loadMoreComments`)
* `Server`      — the Express app (`/api/image-proxy`)
* `AiRoute`     — `routes/ai.js` (`POST /generate-image`)
* `Layout`      — `public/utils/layout.js` (modal open/close handlers)
* `WritePage`   — the write page controller (draft storage, image reordering)

JavaScript `undefined`/`null` arguments are embedded as `Option.none`; a JS
function that `throw`s is embedded as an `Except`-returning function, with the
returned `.ok` value describing the HTTP request the function would issue, so
`.error` means the function throws before any network request is built.
-/

/-- The whitespace characters stripped by `String.prototype.trim` that occur in
this code base's inputs (ASCII whitespace plus NBSP and BOM). -/
def isJsSpace (c : Char) : Bool :=
  c = ' ' || c = '\t' || c = '\n' || c = '\r' || c = '\x0b' || c = '\x0c' ||
    c = '\xa0' || c = '﻿'

/-- Embedding of JavaScript `s.trim()`: strip `isJsSpace` characters from both
ends of the string. -/
def jsTrim (s : String) : String :=
  String.mk (((s.data.dropWhile isJsSpace).reverse.dropWhile isJsSpace).reverse)

/-- Embedding of JavaScript `s.includes(sub)`: substring containment. -/
def jsIncludes (s sub : String) : Bool :=
  s.data.tails.any (fun t => sub.data.isPrefixOf t)

/-- Embedding of JavaScript string length (`s.length`) for the BMP strings this
app handles: the number of characters. -/
def jsLength (s : String) : Nat :=
  s.data.length

namespace PostApi

/-- The validation errors thrown by `postApi.js` (the source throws `Error`
values carrying Korean messages; here each distinct message is a constructor). -/
inductive VErr where
  | titleRequired
  | titleLength
  | contentRequired
  | contentLength
  | postIdRequired
  | emptyUpdate
  deriving DecidableEq, Repr

/-- `validateTitle` from `postApi.js`: a non-string (`none`) or
whitespace-only title is "required", a trimmed length outside `[2, 26]` is a
length error. -/
def validateTitle : Option String → Except VErr Unit
  | none => .error .titleRequired
  | some t =>
    if jsLength (jsTrim t) = 0 then .error .titleRequired
    else if jsLength (jsTrim t) < 2 ∨ 26 < jsLength (jsTrim t) then .error .titleLength
    else .ok ()

/-- `validateContent` from `postApi.js`: trimmed length must be in `[2, 10000]`. -/
def validateContent : Option String → Except VErr Unit
  | none => .error .contentRequired
  | some c =>
    if jsLength (jsTrim c) = 0 then .error .contentRequired
    else if jsLength (jsTrim c) < 2 ∨ 10000 < jsLength (jsTrim c) then .error .contentLength
    else .ok ()

/-- `normalizeImageIds` from `postApi.js`: `undefined`/`null` becomes the
default, otherwise each entry is converted with `Number` (an entry that does
not convert, embedded as `none`, is filtered out as `NaN`). -/
def normalizeImageIds (imageIds : Option (List (Option Int))) (defaultValue : List Int) :
    List Int :=
  match imageIds with
  | none => defaultValue
  | some l => l.filterMap id

/-- The JSON body `createPost` sends to `POST /posts`. -/
structure CreatePostBody where
  title : String
  content : String
  imageIds : List Int
  primaryImageId : Option Int
  deriving DecidableEq, Repr

/-- `createPost` from `postApi.js`: validate the title and the content, then
build the request body from the trimmed strings; `primaryImageId` is attached
only when it occurs in the normalized image-id list.  An `.error` result means
the source function throws before issuing the HTTP request. -/
def createPost (title content : Option String) (imageIds : Option (List (Option Int)))
    (primaryImageId : Option Int) : Except VErr CreatePostBody := do
  validateTitle title
  validateContent content
  let normalizedImageIds := normalizeImageIds imageIds []
  pure
    { title := jsTrim (title.getD "")
      content := jsTrim (content.getD "")
      imageIds := normalizedImageIds
      primaryImageId :=
        match primaryImageId with
        | some p => if p ∈ normalizedImageIds then some p else none
        | none => none }

/-- The query string built by `getPosts`/`getMyPosts`. -/
structure ListQuery where
  sort : String
  limit : Int
  cursor : Option String
  deriving DecidableEq, Repr

/-- The clamped limit from `getPosts`/`getMyPosts`:
`Math.min(Math.max(Number(limit) || default, 1), 50)`.  `none` embeds a limit
that does not convert to a number (`Number(..)` is `NaN`), and `0` also falls
back to the default because `0 || d` is `d` in JavaScript. -/
def safeLimit (limit : Option Int) (defaultLimit : Int) : Int :=
  let n :=
    match limit with
    | none => defaultLimit
    | some v => if v = 0 then defaultLimit else v
  min (max n 1) 50

/-- The sort normalization from `getPosts`/`getMyPosts`:
`sort === 'asc' ? 'asc' : 'desc'` (with default `'desc'`). -/
def safeSort (sort : Option String) : String :=
  if sort = some "asc" then "asc" else "desc"

/-- The cursor inclusion rule of `getPosts`/`getMyPosts`: the cursor is put in
the query iff it is neither `undefined`, `null` nor the empty string. -/
def cursorParam (cursor : Option String) : Option String :=
  match cursor with
  | some c => if c = "" then none else some c
  | none => none

/-- `getPosts` from `postApi.js`: the query string sent to `GET /posts`
(default limit 10). -/
def getPosts (cursor : Option String) (sort : Option String) (limit : Option Int) :
    ListQuery :=
  { sort := safeSort sort, limit := safeLimit limit 10, cursor := cursorParam cursor }

/-- `getMyPosts` from `postApi.js`: the query string sent to `GET /posts/me`
(default limit 20). -/
def getMyPosts (cursor : Option String) (sort : Option String) (limit : Option Int) :
    ListQuery :=
  { sort := safeSort sort, limit := safeLimit limit 20, cursor := cursorParam cursor }

/-- The JSON payload `updatePost` sends to `PATCH /posts/:id`: only the
supplied fields. -/
structure UpdatePostBody where
  title : Option String
  content : Option String
  imageIds : Option (List Int)
  deriving DecidableEq, Repr

/-- `updatePost` from `postApi.js`: requires a post id, validates each supplied
field, trims the supplied title/content into the payload, and rejects an empty
payload. -/
def updatePost (postId : Option String) (title content : Option String)
    (imageIds : Option (List (Option Int))) : Except VErr UpdatePostBody :=
  if postId = none ∨ postId = some "" then .error .postIdRequired
  else
    let titleStep : Except VErr (Option String) :=
      match title with
      | none => .ok none
      | some t =>
        match validateTitle (some t) with
        | .error e => .error e
        | .ok _ => .ok (some (jsTrim t))
    match titleStep with
    | .error e => .error e
    | .ok payloadTitle =>
      let contentStep : Except VErr (Option String) :=
        match content with
        | none => .ok none
        | some c =>
          match validateContent (some c) with
          | .error e => .error e
          | .ok _ => .ok (some (jsTrim c))
      match contentStep with
      | .error e => .error e
      | .ok payloadContent =>
        let payloadImageIds :=
          match imageIds with
          | none => (none : Option (List Int))
          | some l => some (normalizeImageIds (some l) [])
        if payloadTitle = none ∧ payloadContent = none ∧ payloadImageIds = none then
          .error .emptyUpdate
        else
          .ok { title := payloadTitle, content := payloadContent, imageIds := payloadImageIds }

end PostApi

/-- An error thrown by the HTTP client wrapper (`httpClient.js` exposes the
status and a message derived from the response body). -/
structure HttpError where
  status : Nat
  message : String
  deriving DecidableEq, Repr

namespace Server

/-- The `allowedDomains` list of the `/api/image-proxy` route in the Express
app ("S3 URLs only"). -/
def allowedDomains : List String :=
  ["ktb-community-images.s3.ap-northeast-2.amazonaws.com",
    "s3.ap-northeast-2.amazonaws.com"]

/-- The observable outcome of a `GET /api/image-proxy?url=` request, up to the
point where the upstream image is fetched. -/
inductive ProxyResult where
  | badRequest
  | forbidden
  | proxyError
  | fetched (url : String)
  deriving DecidableEq, Repr

/-- The `/api/image-proxy` handler: a missing (or falsy) `url` parameter is a
400, a URL that `new URL` cannot parse throws and is caught as a 500, a
hostname for which no allow-listed domain passes `hostname.includes(domain)`
is a 403, and otherwise the URL is fetched.  `parseHostname` embeds the
platform `new URL(url).hostname` (`none` when the constructor throws). -/
def imageProxy (url : Option String) (parseHostname : String → Option String) :
    ProxyResult :=
  match url with
  | none => .badRequest
  | some u =>
    if u = "" then .badRequest
    else
      match parseHostname u with
      | none => .proxyError
      | some host =>
        if allowedDomains.any (fun d => jsIncludes host d) then .fetched u
        else .forbidden

end Server

namespace AiRoute

/-- JavaScript truthiness of an optional string field of a JSON body (`none`
embeds an absent field, and the empty string is falsy). -/
def jsTruthy : Option String → Bool
  | none => false
  | some v => v ≠ ""

/-- The observable outcome of `POST /api/ai/generate-image`, up to the Gemini
call. -/
inductive GenerateImageResult where
  | apiError (status : Nat) (code : String)
  | callGemini (prompt : String) (profileImageBase64 : String)
  deriving DecidableEq, Repr

/-- The `/generate-image` handler of `routes/ai.js`: the `validateApiKey`
middleware rejects first (500 `API_KEY_NOT_CONFIGURED`), then a falsy
`prompt` is a 400 `PROMPT_REQUIRED`, then a falsy `profileImageBase64` is a
400 `PROFILE_IMAGE_REQUIRED`; only then is Gemini called. -/
def generateImage (geminiApiKey prompt profileImageBase64 : Option String) :
    GenerateImageResult :=
  if ¬ jsTruthy geminiApiKey then .apiError 500 "API_KEY_NOT_CONFIGURED"
  else if ¬ jsTruthy prompt then .apiError 400 "PROMPT_REQUIRED"
  else if ¬ jsTruthy profileImageBase64 then .apiError 400 "PROFILE_IMAGE_REQUIRED"
  else .callGemini (prompt.getD "") (profileImageBase64.getD "")

end AiRoute

namespace ImageApi

/-- The `{remaining, limit, used}` payload of `GET /ai-generations/remaining`. -/
structure Remaining where
  remaining : Int
  limit : Int
  used : Int
  deriving DecidableEq, Repr

/-- `AI_DAILY_LIMIT` from `imageApi.js`. -/
def AI_DAILY_LIMIT : Int := 5

/-- `getAiGenerationRemaining` from `imageApi.js`, as a function of the HTTP
call's outcome: a successful response is unwrapped (`response.data ?? default`),
and any thrown HTTP error is caught and replaced by the fallback
`{remaining: 5, limit: 5, used: 0}` — the function itself never throws. -/
def getAiGenerationRemaining (httpResult : Except HttpError (Option Remaining)) :
    Except HttpError Remaining :=
  match httpResult with
  | .error _ => .ok ⟨AI_DAILY_LIMIT, AI_DAILY_LIMIT, 0⟩
  | .ok d => .ok (d.getD ⟨AI_DAILY_LIMIT, AI_DAILY_LIMIT, 0⟩)

/-- The result object of `checkAiGenerationLimit`. -/
structure LimitCheck where
  canGenerate : Bool
  remaining : Int
  limit : Option Int
  hasMessage : Bool
  deriving DecidableEq, Repr

/-- `checkAiGenerationLimit` from `imageApi.js`: exhausted when
`remaining <= 0`, otherwise generation is allowed. -/
def checkAiGenerationLimit (httpResult : Except HttpError (Option Remaining)) :
    Except HttpError LimitCheck :=
  match getAiGenerationRemaining httpResult with
  | .error e => .error e
  | .ok r =>
    if r.remaining ≤ 0 then .ok ⟨false, 0, none, true⟩
    else .ok ⟨true, r.remaining, some r.limit, false⟩

/-- `getImage` from `imageApi.js`, as a function of the HTTP call's outcome:
after the id check, the wrapper's error propagates unchanged. -/
def getImageRun {α : Type} (imageId : Option String)
    (httpResult : Except HttpError (Option α)) : Except (Unit ⊕ HttpError) (Option α) :=
  if imageId = none ∨ imageId = some "" then .error (.inl ())
  else
    match httpResult with
    | .error e => .error (.inr e)
    | .ok d => .ok d

end ImageApi

namespace PostApi

/-- `createPost` including the HTTP call's outcome: validation errors throw
first, and otherwise the wrapper's error propagates unchanged
(`response.data ?? null` on success). -/
def createPostRun {α : Type} (title content : Option String)
    (imageIds : Option (List (Option Int))) (primaryImageId : Option Int)
    (httpResult : Except HttpError (Option α)) : Except (VErr ⊕ HttpError) (Option α) :=
  match createPost title content imageIds primaryImageId with
  | .error e => .error (.inl e)
  | .ok _ =>
    match httpResult with
    | .error e => .error (.inr e)
    | .ok d => .ok d

/-- `getPosts` including the HTTP call's outcome: no validation, the wrapper's
error propagates unchanged. -/
def getPostsRun {α : Type} (cursor : Option String) (sortOrd : Option String)
    (limit : Option Int) (httpResult : Except HttpError (Option α)) :
    Except HttpError (Option α) :=
  match httpResult with
  | .error e => .error e
  | .ok d => .ok d

/-- `getMyPosts` including the HTTP call's outcome: on success a `null` data
envelope becomes `{posts: [], count: 0, nextCursor: null}` (embedded by the
caller-supplied `emptyResult`), and the wrapper's error propagates unchanged. -/
def getMyPostsRun {α : Type} (cursor : Option String) (sortOrd : Option String)
    (limit : Option Int) (emptyResult : α)
    (httpResult : Except HttpError (Option α)) : Except HttpError α :=
  match httpResult with
  | .error e => .error e
  | .ok d => .ok (d.getD emptyResult)

/-- `getPost`/`deletePost` including the HTTP call's outcome: after the id
check, the wrapper's error propagates unchanged. -/
def getPostRun {α : Type} (postId : Option String)
    (httpResult : Except HttpError (Option α)) : Except (VErr ⊕ HttpError) (Option α) :=
  if postId = none ∨ postId = some "" then .error (.inl .postIdRequired)
  else
    match httpResult with
    | .error e => .error (.inr e)
    | .ok d => .ok d

/-- `updatePost` including the HTTP call's outcome. -/
def updatePostRun {α : Type} (postId : Option String) (title content : Option String)
    (imageIds : Option (List (Option Int)))
    (httpResult : Except HttpError (Option α)) : Except (VErr ⊕ HttpError) (Option α) :=
  match updatePost postId title content imageIds with
  | .error e => .error (.inl e)
  | .ok _ =>
    match httpResult with
    | .error e => .error (.inr e)
    | .ok d => .ok d

end PostApi

namespace FeedPage

/-- A post as the feed page sees it (only the id matters for list identity). -/
structure Post where
  id : Int
  deriving DecidableEq, Repr

/-- The `{posts, hasNext, nextCursor}` page envelope returned by `getPosts`
(each field may be absent, hence `Option`). -/
structure PageData where
  posts : List Post
  hasNext : Option Bool
  nextCursor : Option String
  deriving DecidableEq, Repr

/-- The module-level pagination state of the feed page (`nextCursor`,
`hasNext`, `isLoading`, `isInitialLoad`) together with the rendered list of
post cards. -/
structure FeedState where
  nextCursor : Option String
  hasNext : Bool
  isLoading : Bool
  isInitialLoad : Bool
  rendered : List Post
  deriving DecidableEq, Repr

/-- The feed page's state at `DOMContentLoaded`. -/
def initialFeedState : FeedState :=
  { nextCursor := none, hasNext := true, isLoading := false,
    isInitialLoad := true, rendered := [] }

/-- One `loadPosts` invocation: the request it issues (`none` when the guard
returns early) and the state after it settles. -/
structure StepResult where
  request : Option PostApi.ListQuery
  state : FeedState
  deriving DecidableEq, Repr

/-- `loadPosts` from the feed page, as one atomic step: guarded by
`isLoading`/`hasNext`, it calls `getPosts({cursor: nextCursor, limit: 10})`;
on success it updates `hasNext`/`nextCursor` from the response
(`?? false`/`?? null`) and appends the returned cards to the container
(cleared first only on the initial load); on failure the initial load renders
an error state (clearing the container) and the flags are left as they were.
`resp` is the settled result of the awaited `getPosts` call. -/
def loadPosts (s : FeedState) (resp : Except HttpError (Option PageData)) :
    StepResult :=
  if s.isLoading ∨ ¬ s.hasNext then ⟨none, s⟩
  else
    let req := PostApi.getPosts s.nextCursor none (some 10)
    match resp with
    | .error _ =>
      ⟨some req,
        { s with
          rendered := if s.isInitialLoad then [] else s.rendered,
          isLoading := false }⟩
    | .ok data =>
      let posts := (data.map PageData.posts).getD []
      let hasNext := ((data.map PageData.hasNext).getD none).getD false
      let nextCursor := (data.map PageData.nextCursor).getD none
      if s.isInitialLoad ∧ posts = [] then
        ⟨some req,
          { nextCursor := nextCursor, hasNext := hasNext, isLoading := false,
            isInitialLoad := false, rendered := [] }⟩
      else
        ⟨some req,
          { nextCursor := nextCursor, hasNext := hasNext, isLoading := false,
            isInitialLoad := false,
            rendered := (if s.isInitialLoad then [] else s.rendered) ++ posts }⟩

end FeedPage

namespace ProfilePage

/-- The profile page's my-posts pagination state (same shape as the feed). -/
structure MyPostsState where
  myPostsNextCursor : Option String
  myPostsHasNext : Bool
  myPostsIsLoading : Bool
  myPostsIsInitialLoad : Bool
  rendered : List FeedPage.Post
  deriving DecidableEq, Repr

/-- The profile page's state at load. -/
def initialMyPostsState : MyPostsState :=
  { myPostsNextCursor := none, myPostsHasNext := true, myPostsIsLoading := false,
    myPostsIsInitialLoad := true, rendered := [] }

/-- One `loadMyPosts` invocation: request issued and resulting state. -/
structure MyPostsStepResult where
  request : Option PostApi.ListQuery
  state : MyPostsState
  deriving DecidableEq, Repr

/-- `loadMyPosts` from the profile page, as one atomic step: guarded by
`myPostsIsLoading`/`myPostsHasNext`, it calls
`getMyPosts({cursor: myPostsNextCursor, limit: 20})`, updates the flags from
the response and appends the returned cards (the container is cleared only on
the initial load, and also on an initial-load failure or empty result). -/
def loadMyPosts (s : MyPostsState) (resp : Except HttpError (Option FeedPage.PageData)) :
    MyPostsStepResult :=
  if s.myPostsIsLoading ∨ ¬ s.myPostsHasNext then ⟨none, s⟩
  else
    let req := PostApi.getMyPosts s.myPostsNextCursor none (some 20)
    match resp with
    | .error _ =>
      ⟨some req,
        { s with
          rendered := if s.myPostsIsInitialLoad then [] else s.rendered,
          myPostsIsLoading := false }⟩
    | .ok data =>
      let posts := (data.map FeedPage.PageData.posts).getD []
      let hasNext := ((data.map FeedPage.PageData.hasNext).getD none).getD false
      let nextCursor := (data.map FeedPage.PageData.nextCursor).getD none
      if s.myPostsIsInitialLoad ∧ posts = [] then
        ⟨some req,
          { myPostsNextCursor := nextCursor, myPostsHasNext := hasNext,
            myPostsIsLoading := false, myPostsIsInitialLoad := false,
            rendered := [] }⟩
      else
        ⟨some req,
          { myPostsNextCursor := nextCursor, myPostsHasNext := hasNext,
            myPostsIsLoading := false, myPostsIsInitialLoad := false,
            rendered := (if s.myPostsIsInitialLoad then [] else s.rendered) ++ posts }⟩

end ProfilePage

namespace PostDetail

/-- A comment as the post-detail page stores it in `allComments`. -/
structure Comment where
  id : Int
  contents : String
  deriving DecidableEq, Repr

/-- The `{comments, hasNext, nextCursor, count}` page envelope returned by
`getComments`. -/
structure CommentsPageData where
  comments : List Comment
  hasNext : Option Bool
  nextCursor : Option String
  count : Option Int
  deriving DecidableEq, Repr

/-- The query sent by `getComments`.

Modelled from the spec: `commentApi.js` is not among this repository's source
files; §4.4 describes every list call as carrying an optional `cursor` and a
`limit`, with the comment list fetched in `desc` order. -/
structure CommentsQuery where
  postId : String
  cursor : Option String
  limit : Int
  sortOrd : String
  deriving DecidableEq, Repr

/-- Modelled from the spec: the request `getComments(postId, {cursor, limit,
sort})` issues (the missing `commentApi.js` forwards its arguments to
`GET /posts/:id/comments`). -/
def getComments (postId : String) (cursor : Option String) (limit : Int)
    (sortOrd : String) : CommentsQuery :=
  { postId := postId, cursor := cursor, limit := limit, sortOrd := sortOrd }

/-- The post-detail page's comment pagination state. -/
structure CommentsState where
  commentsNextCursor : Option String
  commentsHasNext : Bool
  commentsIsLoading : Bool
  allComments : List Comment
  deriving DecidableEq, Repr

/-- One `loadMoreComments` invocation: request issued and resulting state. -/
structure CommentsStepResult where
  request : Option CommentsQuery
  state : CommentsState
  deriving DecidableEq, Repr

/-- `loadMoreComments` from `post-detail.js`, as one atomic step: guarded by
`commentsIsLoading`/`commentsHasNext` (and the presence of a post id in the
URL), it calls `getComments(postId, {cursor: commentsNextCursor, limit: 20,
sort: 'desc'})`; on success it updates the flags from the response and appends
to `allComments` only those returned comments whose id is not already present;
on failure the list is left unchanged. -/
def loadMoreComments (postId : Option String) (s : CommentsState)
    (resp : Except HttpError (Option CommentsPageData)) : CommentsStepResult :=
  if s.commentsIsLoading ∨ ¬ s.commentsHasNext then ⟨none, s⟩
  else
    match postId with
    | none => ⟨none, s⟩
    | some pid =>
      let req := getComments pid s.commentsNextCursor 20 "desc"
      match resp with
      | .error _ => ⟨some req, { s with commentsIsLoading := false }⟩
      | .ok data =>
        let comments := (data.map CommentsPageData.comments).getD []
        let hasNext := ((data.map CommentsPageData.hasNext).getD none).getD false
        let nextCursor := (data.map CommentsPageData.nextCursor).getD none
        let existingIds := s.allComments.map Comment.id
        let newComments := comments.filter (fun c => decide (c.id ∉ existingIds))
        ⟨some req,
          { commentsNextCursor := nextCursor, commentsHasNext := hasNext,
            commentsIsLoading := false,
            allComments := s.allComments ++ newComments }⟩

end PostDetail

namespace WritePage

/-- The write page's direct-upload image state: the `uploadedImages` array
(entries are `{imageId, previewUrl, ...}` objects, embedded as an arbitrary
type `α`) and the designated `primaryImageIndex`. -/
structure ImagesState (α : Type) where
  uploadedImages : List α
  primaryImageIndex : Nat
  deriving DecidableEq

/-- The array part of the write page's `drop` handler:
`uploadedImages.splice(draggedIndex, 1)` followed by
`uploadedImages.splice(targetIndex, 0, draggedItem)` — a move, not a swap.
(The handler only fires with indices read from rendered items, so
`draggedIndex` is always in range; out of range the embedded splice pair is a
no-op.) -/
def dropReorder {α : Type} (l : List α) (draggedIndex targetIndex : Nat) : List α :=
  match l[draggedIndex]? with
  | none => l
  | some draggedItem => (l.eraseIdx draggedIndex).insertIdx targetIndex draggedItem

/-- The `primaryImageIndex` adjustment of the `drop` handler, mirroring its
three branches: the primary itself was dragged, an image moved from before the
primary to at-or-after it, or from after the primary to at-or-before it. -/
def dropPrimaryIndex (primaryImageIndex draggedIndex targetIndex : Nat) : Nat :=
  if primaryImageIndex = draggedIndex then targetIndex
  else if draggedIndex < primaryImageIndex ∧ primaryImageIndex ≤ targetIndex then
    primaryImageIndex - 1
  else if primaryImageIndex < draggedIndex ∧ targetIndex ≤ primaryImageIndex then
    primaryImageIndex + 1
  else primaryImageIndex

/-- The write page's `drop` handler (state part): nothing happens unless a
drag is in progress (`draggedIndex !== null`) and the drop target is a
different index; otherwise the primary index is re-derived and the array is
reordered. -/
def dropHandler {α : Type} (s : ImagesState α) (draggedIndex : Option Nat)
    (targetIndex : Nat) : ImagesState α :=
  match draggedIndex with
  | none => s
  | some d =>
    if d = targetIndex then s
    else
      { uploadedImages := dropReorder s.uploadedImages d targetIndex
        primaryImageIndex := dropPrimaryIndex s.primaryImageIndex d targetIndex }

/-- `removeImage` from the write page: `splice(index, 1)`, then the primary
index is reset to 0 when the array became empty or the primary itself was
removed, decremented when an earlier image was removed, and kept otherwise. -/
def removeImage {α : Type} (s : ImagesState α) (index : Nat) : ImagesState α :=
  let arr := s.uploadedImages.eraseIdx index
  { uploadedImages := arr
    primaryImageIndex :=
      if arr.length = 0 then 0
      else if index < s.primaryImageIndex then s.primaryImageIndex - 1
      else if index = s.primaryImageIndex then 0
      else s.primaryImageIndex }

end WritePage

namespace WritePage

/-- Browser `localStorage`, as a map from keys to stored strings. -/
def Storage : Type := String → Option String

/-- `localStorage.setItem`. -/
def storageSet (st : Storage) (k v : String) : Storage :=
  fun q => if q = k then some v else st q

/-- `localStorage.removeItem`. -/
def storageRemove (st : Storage) (k : String) : Storage :=
  fun q => if q = k then none else st q

/-- `DRAFT_STORAGE_KEY` from the write page. -/
def DRAFT_STORAGE_KEY : String := "anoo_post_draft"

/-- The draft object the write page stores: `{title, content, savedAt}`. -/
structure Draft where
  title : String
  content : String
  savedAt : String
  deriving DecidableEq, Repr

/-- Lower-case hexadecimal digit, as produced by `JSON.stringify`'s
control-character escapes. -/
def hexDigitChar (n : Nat) : Char :=
  if n < 10 then Char.ofNat (48 + n) else Char.ofNat (87 + n)

/-- The escape `JSON.stringify` applies to one character of a string value. -/
def escChar (c : Char) : List Char :=
  if c = '"' then ['\\', '"']
  else if c = '\\' then ['\\', '\\']
  else if c = '\x08' then ['\\', 'b']
  else if c = '\t' then ['\\', 't']
  else if c = '\n' then ['\\', 'n']
  else if c = '\x0c' then ['\\', 'f']
  else if c = '\r' then ['\\', 'r']
  else if c.toNat < 32 then
    ['\\', 'u', '0', '0', hexDigitChar (c.toNat / 16), hexDigitChar (c.toNat % 16)]
  else [c]

/-- `JSON.stringify` escaping of a whole string value. -/
def escString (s : String) : List Char :=
  s.data.flatMap escChar

/-- `JSON.stringify({title, content, savedAt})` for the draft object (the
write page stores exactly this shape). -/
def jsonStringifyDraft (d : Draft) : String :=
  String.mk ("\x7b\"title\":\"".data ++ escString d.title ++
    ('"' :: ",\"content\":\"".data) ++ escString d.content ++
    ('"' :: ",\"savedAt\":\"".data) ++ escString d.savedAt ++
    ('"' :: "\x7d".data))

/-- Inverse of a single-character JSON escape code. -/
def unescCode (c : Char) : Option Char :=
  if c = '"' then some '"'
  else if c = '\\' then some '\\'
  else if c = '/' then some '/'
  else if c = 'b' then some '\x08'
  else if c = 't' then some '\t'
  else if c = 'n' then some '\n'
  else if c = 'f' then some '\x0c'
  else if c = 'r' then some '\r'
  else none

/-- Value of one hexadecimal digit. -/
def hexVal (c : Char) : Option Nat :=
  if '0' ≤ c ∧ c ≤ '9' then some (c.toNat - 48)
  else if 'a' ≤ c ∧ c ≤ 'f' then some (c.toNat - 87)
  else if 'A' ≤ c ∧ c ≤ 'F' then some (c.toNat - 55)
  else none

/-- `JSON.parse` of a string value: consume characters up to the closing
quote, undoing escapes; returns the decoded characters and the remainder
after the quote, or `none` where `JSON.parse` would throw. -/
def parseJsonString : List Char → Option (List Char × List Char)
  | [] => none
  | '"' :: rest => some ([], rest)
  | '\\' :: 'u' :: x1 :: x2 :: x3 :: x4 :: rest2 => do
    let v1 ← hexVal x1
    let v2 ← hexVal x2
    let v3 ← hexVal x3
    let v4 ← hexVal x4
    let (res, r) ← parseJsonString rest2
    pure (Char.ofNat (((v1 * 16 + v2) * 16 + v3) * 16 + v4) :: res, r)
  | '\\' :: e :: rest2 => do
    let dec ← unescCode e
    let (res, r) ← parseJsonString rest2
    pure (dec :: res, r)
  | ['\\'] => none
  | c :: rest => do
    let (res, r) ← parseJsonString rest
    pure (c :: res, r)

/-- Consume an expected literal prefix. -/
def expectPrefix (pre l : List Char) : Option (List Char) :=
  if pre.isPrefixOf l then some (l.drop pre.length) else none

/-- `JSON.parse` restricted to the object shape the write page stores
(`{"title": s, "content": s, "savedAt": s}` with string fields in that
order); `none` where `JSON.parse` would throw or yield a different shape. -/
def parseDraftString (s : String) : Option Draft := do
  let r1 ← expectPrefix "\x7b\"title\":\"".data s.data
  let (title, r2) ← parseJsonString r1
  let r3 ← expectPrefix ",\"content\":\"".data r2
  let (content, r4) ← parseJsonString r3
  let r5 ← expectPrefix ",\"savedAt\":\"".data r4
  let (savedAt, r6) ← parseJsonString r5
  let r7 ← expectPrefix "\x7d".data r6
  if r7 = [] then pure ⟨String.mk title, String.mk content, String.mk savedAt⟩
  else none

/-- `saveDraft` from the write page: with both inputs empty the key is
removed, otherwise the stringified draft is stored under
`DRAFT_STORAGE_KEY`. -/
def saveDraft (st : Storage) (title content savedAt : String) : Storage :=
  if title = "" ∧ content = "" then storageRemove st DRAFT_STORAGE_KEY
  else storageSet st DRAFT_STORAGE_KEY (jsonStringifyDraft ⟨title, content, savedAt⟩)

/-- `loadDraft` from the write page: read the key (`none` when absent), parse
it, and on a parse failure remove the corrupted key and return `null`. -/
def loadDraft (st : Storage) : Storage × Option Draft :=
  match st DRAFT_STORAGE_KEY with
  | none => (st, none)
  | some saved =>
    match parseDraftString saved with
    | some d => (st, some d)
    | none => (storageRemove st DRAFT_STORAGE_KEY, none)

/-- `clearDraft` from the write page. -/
def clearDraft (st : Storage) : Storage :=
  storageRemove st DRAFT_STORAGE_KEY

/-- The draft-key effect of `handleSubmit`: when `createPost` succeeds with a
`postId` the draft is cleared; on any failure the storage is untouched. -/
def handleSubmitDraft (st : Storage) (createPostResult : Option Int) : Storage :=
  match createPostResult with
  | some _ => clearDraft st
  | none => st

end WritePage

namespace Layout

/-- The four event registrations one `openModal` call makes (confirm click,
cancel click, overlay click, document keydown). -/
inductive EventKind where
  | confirmClick
  | cancelClick
  | overlayClick
  | keydown
  deriving DecidableEq, Repr

/-- One registered event listener: the closures created by an `openModal`
call are identified by a per-call generation number and capture the
`onConfirm` callback and the optional `options.onCancel` callback (callbacks
are embedded as opaque ids, `none` when the caller passed none). -/
structure Listener where
  kind : EventKind
  gen : Nat
  onConfirm : Option Nat
  onCancel : Option Nat
  deriving DecidableEq, Repr

/-- The DOM/module state of `layout.js`: the listeners currently attached to
the shared modal's nodes, the `currentModalHandlers` record (the generation
whose handlers it stores, `none` when cleared), a counter supplying fresh
closure identities, and the overlay's `hidden` attribute. -/
structure ModalState where
  listeners : List Listener
  currentModalHandlers : Option Nat
  nextGen : Nat
  overlayHidden : Bool
  deriving DecidableEq, Repr

/-- The four listeners registered by an `openModal` call of generation `g`. -/
def fourListeners (g : Nat) (onConfirm onCancel : Option Nat) : List Listener :=
  [⟨.confirmClick, g, onConfirm, onCancel⟩, ⟨.cancelClick, g, onConfirm, onCancel⟩,
    ⟨.overlayClick, g, onConfirm, onCancel⟩, ⟨.keydown, g, onConfirm, onCancel⟩]

/-- `cleanupModalHandlers` from `layout.js`: if a handler record is stored,
remove exactly the listeners it registered (`removeEventListener` with the
stored closures) and clear the record; otherwise do nothing. -/
def cleanupModalHandlers (s : ModalState) : ModalState :=
  match s.currentModalHandlers with
  | none => s
  | some g =>
    { s with
      listeners := s.listeners.filter (fun l => decide (l.gen ≠ g))
      currentModalHandlers := none }

/-- `openModal` from `layout.js` (listener bookkeeping): when the modal DOM
nodes exist, tear down the previous call's listeners, attach four fresh ones
capturing the new callbacks, store them in `currentModalHandlers`, and show
the overlay; with the nodes missing it logs and returns. -/
def openModal (s : ModalState) (onConfirm onCancel : Option Nat)
    (domReady : Bool) : ModalState :=
  if ¬ domReady then s
  else
    let s1 := cleanupModalHandlers s
    let g := s1.nextGen
    { listeners := s1.listeners ++ fourListeners g onConfirm onCancel
      currentModalHandlers := some g
      nextGen := g + 1
      overlayHidden := false }

/-- `closeModal` from `layout.js`: hide the overlay, then clean up the stored
handlers. -/
def closeModal (s : ModalState) : ModalState :=
  cleanupModalHandlers { s with overlayHidden := true }

/-- DOM event dispatch over a snapshot of listeners: a handler fires only if
it is still registered when reached; firing `handleConfirm`/`handleCancel`
invokes the captured callback (if any) and then runs `closeModal`. Returns
the invoked callback ids in order and the final state. -/
def fireList (useConfirm : Bool) : List Listener → ModalState → List Nat × ModalState
  | [], st => ([], st)
  | l :: rest, st =>
    if l ∈ st.listeners then
      let fired := if useConfirm then l.onConfirm.toList else l.onCancel.toList
      let st2 := closeModal st
      let res := fireList useConfirm rest st2
      (fired ++ res.1, res.2)
    else fireList useConfirm rest st

/-- A click on the confirm button: dispatch to the confirm-click listeners. -/
def clickConfirm (s : ModalState) : List Nat × ModalState :=
  fireList true (s.listeners.filter (fun l => decide (l.kind = .confirmClick))) s

/-- A click on the cancel button: dispatch to the cancel-click listeners. -/
def clickCancel (s : ModalState) : List Nat × ModalState :=
  fireList false (s.listeners.filter (fun l => decide (l.kind = .cancelClick))) s

/-- The state invariant `layout.js` maintains: with no stored handler record
there are no modal listeners at all, and with a stored record of generation
`g` the listeners are exactly the four that call registered. -/
def Inv (s : ModalState) : Prop :=
  match s.currentModalHandlers with
  | none => s.listeners = []
  | some g => ∃ oc occ, s.listeners = fourListeners g oc occ

end Layout

-- ===== THEOREM ZONE (all definitions above this line) =====

namespace PostApi

theorem validateTitle_ok_iff (t : String) :
    validateTitle (some t) = .ok () ↔
      2 ≤ jsLength (jsTrim t) ∧ jsLength (jsTrim t) ≤ 26 := by
  simp only [validateTitle]
  split_ifs with h1 h2 <;> simp <;> omega

theorem validateContent_ok_iff (c : String) :
    validateContent (some c) = .ok () ↔
      2 ≤ jsLength (jsTrim c) ∧ jsLength (jsTrim c) ≤ 10000 := by
  simp only [validateContent]
  split_ifs with h1 h2 <;> simp <;> omega

theorem validateTitle_cases (t : Option String) :
    validateTitle t = .ok () ∨ ∃ e, validateTitle t = .error e := by
  cases t with
  | none => exact Or.inr ⟨.titleRequired, rfl⟩
  | some t =>
    simp only [validateTitle]
    split_ifs <;> simp

theorem createPost_ok_iff (t c : String) (ids : Option (List (Option Int)))
    (pid : Option Int) :
    (∃ body, createPost (some t) (some c) ids pid = .ok body) ↔
      (2 ≤ jsLength (jsTrim t) ∧ jsLength (jsTrim t) ≤ 26 ∧
        2 ≤ jsLength (jsTrim c) ∧ jsLength (jsTrim c) ≤ 10000) := by
  simp only [createPost, validateTitle, validateContent]
  split_ifs with h1 h2 h3 h4 <;>
    simp [Except.bind, Bind.bind, pure, Except.pure] <;> omega

end PostApi

namespace PostApi

theorem createPost_ok_body (t c : String) (ids : Option (List (Option Int)))
    (pid : Option Int) (body : CreatePostBody)
    (h : createPost (some t) (some c) ids pid = .ok body) :
    body.title = jsTrim t ∧ body.content = jsTrim c := by
  simp only [createPost, validateTitle, validateContent] at h
  split_ifs at h <;>
    simp only [Except.bind, Bind.bind, pure, Except.pure, Except.ok.injEq,
      reduceCtorEq] at h
  subst h
  exact ⟨rfl, rfl⟩

theorem updatePost_title_only_ok_iff (pid t : String) (h : pid ≠ "") :
    (∃ body, updatePost (some pid) (some t) none none = .ok body) ↔
      2 ≤ jsLength (jsTrim t) ∧ jsLength (jsTrim t) ≤ 26 := by
  simp only [updatePost, validateTitle]
  split_ifs with h1 h2 h3 <;> simp_all <;> omega

theorem updatePost_content_only_ok_iff (pid c : String) (h : pid ≠ "") :
    (∃ body, updatePost (some pid) none (some c) none = .ok body) ↔
      2 ≤ jsLength (jsTrim c) ∧ jsLength (jsTrim c) ≤ 10000 := by
  simp only [updatePost, validateContent]
  split_ifs with h1 h2 h3 <;> simp_all <;> omega

theorem updatePost_title_out_of_range (postId : Option String) (t : String)
    (content : Option String) (ids : Option (List (Option Int)))
    (hout : jsLength (jsTrim t) < 2 ∨ 26 < jsLength (jsTrim t)) :
    ∀ body, updatePost postId (some t) content ids ≠ .ok body := by
  intro body
  simp only [updatePost, validateTitle]
  split_ifs with h1 h2 h3 <;> simp_all <;> omega

theorem updatePost_content_out_of_range (postId : Option String) (title : Option String)
    (c : String) (ids : Option (List (Option Int)))
    (hout : jsLength (jsTrim c) < 2 ∨ 10000 < jsLength (jsTrim c)) :
    ∀ body, updatePost postId title (some c) ids ≠ .ok body := by
  intro body
  simp only [updatePost, validateTitle, validateContent]
  split_ifs with h1 <;> cases title <;> simp_all <;> split_ifs <;> simp_all <;> omega

theorem updatePost_ok_sends_trimmed (postId : Option String) (t c : String)
    (ids : Option (List (Option Int))) (body : UpdatePostBody)
    (h : updatePost postId (some t) (some c) ids = .ok body) :
    body.title = some (jsTrim t) ∧ body.content = some (jsTrim c) := by
  simp only [updatePost, validateTitle, validateContent] at h
  split_ifs at h <;> simp_all
  subst h
  exact ⟨rfl, rfl⟩

end PostApi

namespace PostApi

theorem createPost_title_a_rejected (c : Option String) (ids : Option (List (Option Int)))
    (pid : Option Int) :
    createPost (some " a ") c ids pid = .error .titleLength := by
  have h1 : jsLength (jsTrim " a ") = 1 := by decide
  simp [createPost, validateTitle, h1, Bind.bind, Except.bind]

theorem safeLimit_bounds (lim : Option Int) (d : Int) :
    1 ≤ safeLimit lim d ∧ safeLimit lim d ≤ 50 :=
  ⟨le_min (le_max_right _ _) (by norm_num), min_le_right _ _⟩

theorem safeLimit_nonzero (n : Int) (d : Int) (h : n ≠ 0) :
    safeLimit (some n) d = min (max n 1) 50 := by
  simp [safeLimit, h]

end PostApi

/-- **C3**: `createPost` (and `updatePost` when the field is supplied) throws a
validation error before any network request whenever the whitespace-trimmed
title has length outside `[2, 26]` or the trimmed content has length outside
`[2, 10000]`; the title `" a "` is rejected (trimmed length 1); and when
validation passes, the trimmed title and content are what is sent. -/
theorem c3_trim_validation :
    (∀ t c ids pid,
        (∃ body, PostApi.createPost (some t) (some c) ids pid = .ok body) ↔
          (2 ≤ jsLength (jsTrim t) ∧ jsLength (jsTrim t) ≤ 26 ∧
            2 ≤ jsLength (jsTrim c) ∧ jsLength (jsTrim c) ≤ 10000)) ∧
    (∀ t c ids pid body, PostApi.createPost (some t) (some c) ids pid = .ok body →
        body.title = jsTrim t ∧ body.content = jsTrim c) ∧
    (∀ c ids pid, PostApi.createPost (some " a ") c ids pid = .error .titleLength) ∧
    (∀ postId t content ids,
        (jsLength (jsTrim t) < 2 ∨ 26 < jsLength (jsTrim t)) →
        ∀ body, PostApi.updatePost postId (some t) content ids ≠ .ok body) ∧
    (∀ postId ti c ids,
        (jsLength (jsTrim c) < 2 ∨ 10000 < jsLength (jsTrim c)) →
        ∀ body, PostApi.updatePost postId ti (some c) ids ≠ .ok body) ∧
    (∀ postId t c ids body,
        PostApi.updatePost postId (some t) (some c) ids = .ok body →
        body.title = some (jsTrim t) ∧ body.content = some (jsTrim c)) ∧
    (∀ pid t, pid ≠ "" →
        ((∃ body, PostApi.updatePost (some pid) (some t) none none = .ok body) ↔
          (2 ≤ jsLength (jsTrim t) ∧ jsLength (jsTrim t) ≤ 26))) :=
  ⟨PostApi.createPost_ok_iff, PostApi.createPost_ok_body,
    PostApi.createPost_title_a_rejected,
    fun postId t content ids hout => PostApi.updatePost_title_out_of_range postId t content ids hout,
    fun postId ti c ids hout => PostApi.updatePost_content_out_of_range postId ti c ids hout,
    PostApi.updatePost_ok_sends_trimmed,
    fun pid t h => PostApi.updatePost_title_only_ok_iff pid t h⟩

/-- Witness for C3 at concrete inputs. -/
theorem c3_trim_validation_witness :
    (∃ body, PostApi.createPost (some "hi") (some "hello world") none none = .ok body) ∧
    (∀ body, PostApi.updatePost (some "3") (some "x") none none ≠ .ok body) ∧
    (∃ body, PostApi.updatePost (some "3") (some "hey") none none = .ok body) :=
  ⟨(c3_trim_validation.1 "hi" "hello world" none none).mpr (by decide),
    c3_trim_validation.2.2.2.1 (some "3") "x" none none (by decide),
    (c3_trim_validation.2.2.2.2.2.2 "3" "hey" (by decide)).mpr (by decide)⟩

/-- **C4**: the `limit` sent by `getPosts`/`getMyPosts` is the requested limit
clamped into `[1, 50]`; a requested `999` is sent as `50`, and `0` or a
non-numeric value is sent as the default (10 for `getPosts`, 20 for
`getMyPosts`). -/
theorem c4_limit_clamp :
    (∀ cu so, (PostApi.getPosts cu so (some 999)).limit = 50) ∧
    (∀ cu so, (PostApi.getPosts cu so (some 0)).limit = 10) ∧
    (∀ cu so, (PostApi.getPosts cu so none).limit = 10) ∧
    (∀ cu so lim, 1 ≤ (PostApi.getPosts cu so lim).limit ∧
      (PostApi.getPosts cu so lim).limit ≤ 50) ∧
    (∀ cu so n, n ≠ 0 → (PostApi.getPosts cu so (some n)).limit = min (max n 1) 50) ∧
    (∀ cu so, (PostApi.getMyPosts cu so (some 999)).limit = 50) ∧
    (∀ cu so, (PostApi.getMyPosts cu so (some 0)).limit = 20) ∧
    (∀ cu so, (PostApi.getMyPosts cu so none).limit = 20) ∧
    (∀ cu so lim, 1 ≤ (PostApi.getMyPosts cu so lim).limit ∧
      (PostApi.getMyPosts cu so lim).limit ≤ 50) ∧
    (∀ cu so n, n ≠ 0 → (PostApi.getMyPosts cu so (some n)).limit = min (max n 1) 50) :=
  ⟨fun _ _ => show PostApi.safeLimit (some 999) 10 = 50 from by decide,
    fun _ _ => show PostApi.safeLimit (some 0) 10 = 10 from by decide,
    fun _ _ => show PostApi.safeLimit none 10 = 10 from by decide,
    fun _ _ lim => PostApi.safeLimit_bounds lim 10,
    fun _ _ n h => PostApi.safeLimit_nonzero n 10 h,
    fun _ _ => show PostApi.safeLimit (some 999) 20 = 50 from by decide,
    fun _ _ => show PostApi.safeLimit (some 0) 20 = 20 from by decide,
    fun _ _ => show PostApi.safeLimit none 20 = 20 from by decide,
    fun _ _ lim => PostApi.safeLimit_bounds lim 20,
    fun _ _ n h => PostApi.safeLimit_nonzero n 20 h⟩

/-- Witness for C4 at concrete inputs. -/
theorem c4_limit_clamp_witness :
    (PostApi.getPosts none none (some 999)).limit = 50 ∧
    (PostApi.getMyPosts none none (some 7)).limit = min (max 7 1) 50 :=
  ⟨c4_limit_clamp.1 none none, c4_limit_clamp.2.2.2.2.2.2.2.2.2 none none 7 (by decide)⟩

/-- **C2** (failing input): the `/api/image-proxy` allow-list check uses
substring containment (`hostname.includes(domain)`), so the request with
`url=https://s3.ap-northeast-2.amazonaws.com.evil.example/img.png` — whose
hostname is *not* an allow-listed S3 domain — is fetched instead of being
rejected with 403; a hostname containing no allow-listed domain does get the
403. -/
theorem c2_image_proxy_allowlist_bypass :
    Server.imageProxy
        (some "https://s3.ap-northeast-2.amazonaws.com.evil.example/img.png")
        (fun _ => some "s3.ap-northeast-2.amazonaws.com.evil.example") =
      .fetched "https://s3.ap-northeast-2.amazonaws.com.evil.example/img.png" ∧
    "s3.ap-northeast-2.amazonaws.com.evil.example" ∉ Server.allowedDomains ∧
    Server.imageProxy (some "https://cdn.evil.example/img.png")
        (fun _ => some "cdn.evil.example") = .forbidden := by
  refine ⟨by decide, by decide, by decide⟩

/-- **C9** (counterexample): a `POST /api/ai/generate-image` body that lacks
`profileImageBase64` *and* `prompt` is answered with `code: PROMPT_REQUIRED`,
not `PROFILE_IMAGE_REQUIRED`, because the prompt check runs first. -/
theorem c9_counterexample :
    AiRoute.generateImage (some "test-key") none none =
      .apiError 400 "PROMPT_REQUIRED" ∧
    "PROMPT_REQUIRED" ≠ "PROFILE_IMAGE_REQUIRED" := by
  refine ⟨by decide, by decide⟩

/-- **C9** (amended): with the API key configured and a truthy `prompt`, a
request lacking `profileImageBase64` is answered with HTTP 400 and
`code: PROFILE_IMAGE_REQUIRED` without calling Gemini; when `prompt` is falsy
the 400 carries `PROMPT_REQUIRED` instead, and without the API key the
response is a 500. -/
theorem c9_profile_image_required :
    (∀ key p img, AiRoute.jsTruthy key → AiRoute.jsTruthy p → ¬ AiRoute.jsTruthy img →
        AiRoute.generateImage key p img = .apiError 400 "PROFILE_IMAGE_REQUIRED") ∧
    (∀ key p img, AiRoute.jsTruthy key → ¬ AiRoute.jsTruthy p →
        AiRoute.generateImage key p img = .apiError 400 "PROMPT_REQUIRED") ∧
    (∀ p img, AiRoute.generateImage none p img = .apiError 500 "API_KEY_NOT_CONFIGURED") :=
  ⟨fun key p img hk hp himg => by simp [AiRoute.generateImage, hk, hp, himg],
    fun key p img hk hp => by simp [AiRoute.generateImage, hk, hp],
    fun p img => by simp [AiRoute.generateImage, AiRoute.jsTruthy]⟩

/-- Witness for the amended C9 at concrete inputs. -/
theorem c9_profile_image_required_witness :
    AiRoute.generateImage (some "k") (some "a cat on a beach") none =
      .apiError 400 "PROFILE_IMAGE_REQUIRED" :=
  c9_profile_image_required.1 (some "k") (some "a cat on a beach") none
    (by decide) (by decide) (by decide)

/-- **C10**: when the `GET /ai-generations/remaining` call fails for any
reason, `getAiGenerationRemaining` returns the fallback
`{remaining: 5, limit: 5, used: 0}` and `checkAiGenerationLimit` consequently
reports `canGenerate: true` — the client-side AI limit check fails open. -/
theorem c10_ai_limit_fails_open :
    (∀ e, ImageApi.getAiGenerationRemaining (.error e) = .ok ⟨5, 5, 0⟩) ∧
    (∀ e, ImageApi.checkAiGenerationLimit (.error e) = .ok ⟨true, 5, some 5, false⟩) :=
  ⟨fun _ => rfl, fun _ => rfl⟩

/-- **C5** (counterexample): `getAiGenerationRemaining` is a domain API client
function that does *not* propagate the wrapper's error: it catches it and
substitutes the default `{remaining: 5, limit: 5, used: 0}`. -/
theorem c5_counterexample :
    ImageApi.getAiGenerationRemaining (.error ⟨500, "fetch failed"⟩) =
      .ok ⟨5, 5, 0⟩ ∧
    (Except.ok ⟨5, 5, 0⟩ : Except HttpError ImageApi.Remaining) ≠
      .error ⟨500, "fetch failed"⟩ :=
  ⟨rfl, fun h => Except.noConfusion h⟩

/-- **C5** (amended): every embedded domain API client function passes the
HTTP wrapper's error through unchanged — no retry, no substituted default —
*except* `getAiGenerationRemaining`, which catches the error and returns the
fallback `{remaining: 5, limit: 5, used: 0}`. -/
theorem c5_http_error_propagation :
    (∀ (α : Type) t c ids pid e, (∃ b, PostApi.createPost t c ids pid = .ok b) →
        PostApi.createPostRun t c ids pid (Except.error e : Except HttpError (Option α)) =
          .error (.inr e)) ∧
    (∀ (α : Type) cu so lim e,
        PostApi.getPostsRun cu so lim (Except.error e : Except HttpError (Option α)) =
          .error e) ∧
    (∀ (α : Type) cu so lim (empty : α) e,
        PostApi.getMyPostsRun cu so lim empty (.error e) = .error e) ∧
    (∀ (α : Type) pid e, pid ≠ none → pid ≠ some "" →
        PostApi.getPostRun pid (Except.error e : Except HttpError (Option α)) =
          .error (.inr e)) ∧
    (∀ (α : Type) pid t c ids e, (∃ b, PostApi.updatePost pid t c ids = .ok b) →
        PostApi.updatePostRun pid t c ids (Except.error e : Except HttpError (Option α)) =
          .error (.inr e)) ∧
    (∀ (α : Type) iid e, iid ≠ none → iid ≠ some "" →
        ImageApi.getImageRun iid (Except.error e : Except HttpError (Option α)) =
          .error (.inr e)) ∧
    (∀ e, ImageApi.getAiGenerationRemaining (.error e) = .ok ⟨5, 5, 0⟩) :=
  ⟨fun α t c ids pid e ⟨b, hb⟩ => by simp [PostApi.createPostRun, hb],
    fun α cu so lim e => rfl,
    fun α cu so lim empty e => rfl,
    fun α pid e h1 h2 => by simp [PostApi.getPostRun, h1, h2],
    fun α pid t c ids e ⟨b, hb⟩ => by simp [PostApi.updatePostRun, hb],
    fun α iid e h1 h2 => by simp [ImageApi.getImageRun, h1, h2],
    fun _ => rfl⟩

/-- Witness for the amended C5 at concrete inputs. -/
theorem c5_http_error_propagation_witness :
    PostApi.createPostRun (some "hi") (some "hello world") none none
        (Except.error ⟨500, "boom"⟩ : Except HttpError (Option Unit)) =
      .error (.inr ⟨500, "boom"⟩) ∧
    PostApi.getPostRun (some "7")
        (Except.error ⟨401, "unauthorized"⟩ : Except HttpError (Option Unit)) =
      .error (.inr ⟨401, "unauthorized"⟩) :=
  ⟨c5_http_error_propagation.1 Unit (some "hi") (some "hello world") none none
      ⟨500, "boom"⟩ ((PostApi.createPost_ok_iff "hi" "hello world" none none).mpr (by decide)),
    c5_http_error_propagation.2.2.2.1 Unit (some "7") ⟨401, "unauthorized"⟩
      (by decide) (by decide)⟩

theorem FeedPage.loadPosts_request (s : FeedPage.FeedState)
    (resp : Except HttpError (Option FeedPage.PageData))
    (h1 : s.isLoading = false) (h2 : s.hasNext = true) :
    (FeedPage.loadPosts s resp).request =
      some (PostApi.getPosts s.nextCursor none (some 10)) := by
  cases resp <;> simp [FeedPage.loadPosts, h1, h2] <;> split_ifs <;> rfl

theorem FeedPage.loadPosts_state_ok (s : FeedPage.FeedState) (d : FeedPage.PageData)
    (h1 : s.isLoading = false) (h2 : s.hasNext = true) :
    (FeedPage.loadPosts s (.ok (some d))).state.nextCursor = d.nextCursor ∧
    (FeedPage.loadPosts s (.ok (some d))).state.hasNext = d.hasNext.getD false ∧
    (FeedPage.loadPosts s (.ok (some d))).state.isLoading = false := by
  simp [FeedPage.loadPosts, h1, h2]
  split_ifs <;> simp

theorem FeedPage.loadPosts_append (s : FeedPage.FeedState) (d : FeedPage.PageData)
    (h1 : s.isLoading = false) (h2 : s.hasNext = true) (h3 : s.isInitialLoad = false) :
    (FeedPage.loadPosts s (.ok (some d))).state.rendered = s.rendered ++ d.posts := by
  simp [FeedPage.loadPosts, h1, h2, h3]

theorem ProfilePage.loadMyPosts_request (s : ProfilePage.MyPostsState)
    (resp : Except HttpError (Option FeedPage.PageData))
    (h1 : s.myPostsIsLoading = false) (h2 : s.myPostsHasNext = true) :
    (ProfilePage.loadMyPosts s resp).request =
      some (PostApi.getMyPosts s.myPostsNextCursor none (some 20)) := by
  cases resp <;> simp [ProfilePage.loadMyPosts, h1, h2] <;> split_ifs <;> rfl

theorem ProfilePage.loadMyPosts_state_ok (s : ProfilePage.MyPostsState)
    (d : FeedPage.PageData)
    (h1 : s.myPostsIsLoading = false) (h2 : s.myPostsHasNext = true) :
    (ProfilePage.loadMyPosts s (.ok (some d))).state.myPostsNextCursor = d.nextCursor ∧
    (ProfilePage.loadMyPosts s (.ok (some d))).state.myPostsHasNext = d.hasNext.getD false ∧
    (ProfilePage.loadMyPosts s (.ok (some d))).state.myPostsIsLoading = false := by
  simp [ProfilePage.loadMyPosts, h1, h2]
  split_ifs <;> simp

theorem ProfilePage.loadMyPosts_append (s : ProfilePage.MyPostsState)
    (d : FeedPage.PageData)
    (h1 : s.myPostsIsLoading = false) (h2 : s.myPostsHasNext = true)
    (h3 : s.myPostsIsInitialLoad = false) :
    (ProfilePage.loadMyPosts s (.ok (some d))).state.rendered =
      s.rendered ++ d.posts := by
  simp [ProfilePage.loadMyPosts, h1, h2, h3]

theorem PostDetail.loadMoreComments_request (pid : String) (s : PostDetail.CommentsState)
    (resp : Except HttpError (Option PostDetail.CommentsPageData))
    (h1 : s.commentsIsLoading = false) (h2 : s.commentsHasNext = true) :
    (PostDetail.loadMoreComments (some pid) s resp).request =
      some (PostDetail.getComments pid s.commentsNextCursor 20 "desc") := by
  cases resp <;> simp [PostDetail.loadMoreComments, h1, h2]

theorem PostDetail.loadMoreComments_state_ok (pid : String)
    (s : PostDetail.CommentsState) (d : PostDetail.CommentsPageData)
    (h1 : s.commentsIsLoading = false) (h2 : s.commentsHasNext = true) :
    (PostDetail.loadMoreComments (some pid) s (.ok (some d))).state.commentsNextCursor =
      d.nextCursor ∧
    (PostDetail.loadMoreComments (some pid) s (.ok (some d))).state.commentsHasNext =
      d.hasNext.getD false ∧
    (PostDetail.loadMoreComments (some pid) s (.ok (some d))).state.commentsIsLoading =
      false := by
  simp [PostDetail.loadMoreComments, h1, h2]

theorem PostDetail.loadMoreComments_merge (pid : String)
    (s : PostDetail.CommentsState) (d : PostDetail.CommentsPageData)
    (h1 : s.commentsIsLoading = false) (h2 : s.commentsHasNext = true) :
    (PostDetail.loadMoreComments (some pid) s (.ok (some d))).state.allComments =
      s.allComments ++
        d.comments.filter
          (fun c => decide (c.id ∉ s.allComments.map PostDetail.Comment.id)) := by
  simp [PostDetail.loadMoreComments, h1, h2]

theorem PostDetail.merged_ids_nodup (old incoming : List PostDetail.Comment)
    (h1 : (old.map PostDetail.Comment.id).Nodup)
    (h2 : (incoming.map PostDetail.Comment.id).Nodup) :
    ((old ++
        incoming.filter
          (fun c => decide (c.id ∉ old.map PostDetail.Comment.id))).map
        PostDetail.Comment.id).Nodup := by
  rw [List.map_append]
  refine List.Nodup.append h1 ?_ ?_
  · exact ((List.filter_sublist incoming).map PostDetail.Comment.id).nodup h2
  · intro a hin hin2
    simp only [List.mem_map, List.mem_filter, decide_eq_true_eq] at hin2
    obtain ⟨c, ⟨hmem, hnot⟩, rfl⟩ := hin2
    exact hnot (List.mem_map.mp hin)

/-- **C1** (counterexample): with a mocked backend whose first page is
`{posts: [id 1], hasNext: true, nextCursor: "abc"}` and whose second page
repeats id 1, the feed's second `loadPosts` call does include `cursor=abc` and
appends, but the merged list contains the duplicate id `[1, 1]` — the feed
(unlike the comment loader) performs no de-duplication, so the claim's
"no duplicate ids present after merging" fails for the feed at this input. -/
theorem c1_counterexample :
    ((FeedPage.loadPosts
        (FeedPage.loadPosts FeedPage.initialFeedState
          (.ok (some ⟨[⟨1⟩], some true, some "abc"⟩))).state
        (.ok (some ⟨[⟨1⟩], some false, none⟩))).request =
      some (PostApi.getPosts (some "abc") none (some 10))) ∧
    ((FeedPage.loadPosts
        (FeedPage.loadPosts FeedPage.initialFeedState
          (.ok (some ⟨[⟨1⟩], some true, some "abc"⟩))).state
        (.ok (some ⟨[⟨1⟩], some false, none⟩))).state.rendered.map FeedPage.Post.id =
      [1, 1]) ∧
    ¬ ((FeedPage.loadPosts
        (FeedPage.loadPosts FeedPage.initialFeedState
          (.ok (some ⟨[⟨1⟩], some true, some "abc"⟩))).state
        (.ok (some ⟨[⟨1⟩], some false, none⟩))).state.rendered.map
        FeedPage.Post.id).Nodup := by
  refine ⟨by decide, by decide, by decide⟩

/-- **C1** (amended): every paginated loader (feed posts, my posts, post-detail
comments) sends the stored cursor with the next request — in particular, after
a response carrying `hasNext: true` and `nextCursor: "abc"` the next request
carries `cursor=abc` — and appends (never replaces) the already-accumulated
items on non-initial loads; only the comment loader de-duplicates by id when
merging, so its merged list has no duplicate ids whenever each page is
internally duplicate-free (the feed and my-posts loaders append without
de-duplication). -/
theorem c1_pagination_cursor_append :
    (∀ s resp, s.isLoading = false → s.hasNext = true →
        (FeedPage.loadPosts s resp).request =
          some (PostApi.getPosts s.nextCursor none (some 10))) ∧
    (∀ s d resp2, s.isLoading = false → s.hasNext = true →
        d.hasNext = some true → d.nextCursor = some "abc" →
        (FeedPage.loadPosts (FeedPage.loadPosts s (.ok (some d))).state resp2).request =
          some (PostApi.getPosts (some "abc") none (some 10))) ∧
    (∀ s d, s.isLoading = false → s.hasNext = true → s.isInitialLoad = false →
        (FeedPage.loadPosts s (.ok (some d))).state.rendered =
          s.rendered ++ d.posts) ∧
    (∀ s resp, s.myPostsIsLoading = false → s.myPostsHasNext = true →
        (ProfilePage.loadMyPosts s resp).request =
          some (PostApi.getMyPosts s.myPostsNextCursor none (some 20))) ∧
    (∀ s d resp2, s.myPostsIsLoading = false → s.myPostsHasNext = true →
        d.hasNext = some true → d.nextCursor = some "abc" →
        (ProfilePage.loadMyPosts (ProfilePage.loadMyPosts s (.ok (some d))).state
            resp2).request =
          some (PostApi.getMyPosts (some "abc") none (some 20))) ∧
    (∀ s d, s.myPostsIsLoading = false → s.myPostsHasNext = true →
        s.myPostsIsInitialLoad = false →
        (ProfilePage.loadMyPosts s (.ok (some d))).state.rendered =
          s.rendered ++ d.posts) ∧
    (∀ pid s resp, s.commentsIsLoading = false → s.commentsHasNext = true →
        (PostDetail.loadMoreComments (some pid) s resp).request =
          some (PostDetail.getComments pid s.commentsNextCursor 20 "desc")) ∧
    (∀ pid s d resp2, s.commentsIsLoading = false → s.commentsHasNext = true →
        d.hasNext = some true → d.nextCursor = some "abc" →
        (PostDetail.loadMoreComments (some pid)
            (PostDetail.loadMoreComments (some pid) s (.ok (some d))).state
            resp2).request =
          some (PostDetail.getComments pid (some "abc") 20 "desc")) ∧
    (∀ pid s d, s.commentsIsLoading = false → s.commentsHasNext = true →
        (PostDetail.loadMoreComments (some pid) s (.ok (some d))).state.allComments =
          s.allComments ++
            d.comments.filter
              (fun c => decide (c.id ∉ s.allComments.map PostDetail.Comment.id))) ∧
    (∀ pid s d, s.commentsIsLoading = false → s.commentsHasNext = true →
        (s.allComments.map PostDetail.Comment.id).Nodup →
        (d.comments.map PostDetail.Comment.id).Nodup →
        ((PostDetail.loadMoreComments (some pid) s
            (.ok (some d))).state.allComments.map PostDetail.Comment.id).Nodup) :=
  ⟨FeedPage.loadPosts_request,
    fun s d resp2 h1 h2 hh hc => by
      obtain ⟨hnc, hhn, hil⟩ := FeedPage.loadPosts_state_ok s d h1 h2
      have hreq := FeedPage.loadPosts_request
        ((FeedPage.loadPosts s (.ok (some d))).state) resp2 hil
        (by rw [hhn, hh]; rfl)
      rw [hreq, hnc, hc],
    FeedPage.loadPosts_append,
    ProfilePage.loadMyPosts_request,
    fun s d resp2 h1 h2 hh hc => by
      obtain ⟨hnc, hhn, hil⟩ := ProfilePage.loadMyPosts_state_ok s d h1 h2
      have hreq := ProfilePage.loadMyPosts_request
        ((ProfilePage.loadMyPosts s (.ok (some d))).state) resp2 hil
        (by rw [hhn, hh]; rfl)
      rw [hreq, hnc, hc],
    ProfilePage.loadMyPosts_append,
    PostDetail.loadMoreComments_request,
    fun pid s d resp2 h1 h2 hh hc => by
      obtain ⟨hnc, hhn, hil⟩ := PostDetail.loadMoreComments_state_ok pid s d h1 h2
      have hreq := PostDetail.loadMoreComments_request pid
        ((PostDetail.loadMoreComments (some pid) s (.ok (some d))).state) resp2 hil
        (by rw [hhn, hh]; rfl)
      rw [hreq, hnc, hc],
    PostDetail.loadMoreComments_merge,
    fun pid s d h1 h2 hn1 hn2 => by
      rw [PostDetail.loadMoreComments_merge pid s d h1 h2]
      exact PostDetail.merged_ids_nodup _ _ hn1 hn2⟩

/-- Witness for the amended C1 at concrete inputs. -/
theorem c1_pagination_cursor_append_witness :
    (FeedPage.loadPosts
        (FeedPage.loadPosts FeedPage.initialFeedState
          (.ok (some ⟨[⟨1⟩], some true, some "abc"⟩))).state
        (.ok (some ⟨[⟨2⟩], some false, none⟩))).request =
      some (PostApi.getPosts (some "abc") none (some 10)) ∧
    ((PostDetail.loadMoreComments (some "9")
        ⟨some "c1", true, false, [⟨1, "a"⟩]⟩
        (.ok (some ⟨[⟨1, "a"⟩, ⟨2, "b"⟩], some false, none,
          none⟩))).state.allComments.map PostDetail.Comment.id).Nodup :=
  ⟨c1_pagination_cursor_append.2.1 FeedPage.initialFeedState
      ⟨[⟨1⟩], some true, some "abc"⟩ (.ok (some ⟨[⟨2⟩], some false, none⟩))
      rfl rfl rfl rfl,
    c1_pagination_cursor_append.2.2.2.2.2.2.2.2.2 "9"
      ⟨some "c1", true, false, [⟨1, "a"⟩]⟩
      ⟨[⟨1, "a"⟩, ⟨2, "b"⟩], some false, none, none⟩
      rfl rfl (by decide) (by decide)⟩

theorem WritePage.perm_insertIdx {α : Type} (x : α) :
    ∀ (t : Nat) (m : List α), t ≤ m.length → (m.insertIdx t x).Perm (x :: m)
  | 0, _, _ => .refl _
  | t + 1, [], h => by simp at h
  | t + 1, a :: m, h => by
    rw [List.insertIdx_succ_cons]
    exact ((WritePage.perm_insertIdx x t m (Nat.le_of_succ_le_succ h)).cons a).trans
      (List.Perm.swap x a m)

theorem WritePage.perm_cons_eraseIdx {α : Type} :
    ∀ (d : Nat) (l : List α) (h : d < l.length), l.Perm (l.get ⟨d, h⟩ :: l.eraseIdx d)
  | 0, _ :: _, _ => .refl _
  | d + 1, a :: l, h => by
    have ih := WritePage.perm_cons_eraseIdx d l (Nat.lt_of_succ_lt_succ h)
    exact (ih.cons a).trans (List.Perm.swap _ a _)

theorem WritePage.getElem?_insertIdx_all {α : Type} (x : α) :
    ∀ (t : Nat) (m : List α) (j : Nat), t ≤ m.length →
      (m.insertIdx t x)[j]? =
        if j < t then m[j]? else if j = t then some x else m[j - 1]?
  | 0, m, j, _ => by
    cases j <;> simp [List.insertIdx_zero]
  | t + 1, [], _, h => by simp at h
  | t + 1, a :: m, j, h => by
    rw [List.insertIdx_succ_cons]
    cases j with
    | zero => simp
    | succ j =>
      rw [List.getElem?_cons_succ,
        WritePage.getElem?_insertIdx_all x t m j (by simpa using h)]
      by_cases h1 : j < t
      · simp [h1, Nat.succ_lt_succ h1]
      · by_cases h2 : j = t
        · simp [h1, h2]
        · have h3 : ¬ (j + 1 < t + 1) := by omega
          have h4 : ¬ (j + 1 = t + 1) := by omega
          simp only [if_neg h1, if_neg h2, if_neg h3, if_neg h4]
          obtain ⟨k, rfl⟩ : ∃ k, j = k + 1 := ⟨j - 1, by omega⟩
          simp

theorem WritePage.dropReorder_perm {α : Type} (l : List α) (d t : Nat)
    (hd : d < l.length) (ht : t < l.length) :
    (WritePage.dropReorder l d t).Perm l := by
  unfold WritePage.dropReorder
  rw [List.getElem?_eq_getElem hd]
  have hm : (l.eraseIdx d).length = l.length - 1 := by
    rw [List.length_eraseIdx]
    simp [hd]
  refine (WritePage.perm_insertIdx _ t (l.eraseIdx d) (by omega)).trans ?_
  exact (WritePage.perm_cons_eraseIdx d l hd).symm

theorem WritePage.dropReorder_length {α : Type} (l : List α) (d t : Nat)
    (hd : d < l.length) (ht : t < l.length) :
    (WritePage.dropReorder l d t).length = l.length :=
  ((WritePage.dropReorder_perm l d t hd ht).length_eq)

theorem WritePage.dropReorder_primary {α : Type} (l : List α) (p d t : Nat)
    (hd : d < l.length) (ht : t < l.length) (hp : p < l.length) :
    (WritePage.dropReorder l d t)[WritePage.dropPrimaryIndex p d t]? = l[p]? := by
  have hm : (l.eraseIdx d).length = l.length - 1 := by
    rw [List.length_eraseIdx]
    simp [hd]
  unfold WritePage.dropReorder
  rw [List.getElem?_eq_getElem hd]
  unfold WritePage.dropPrimaryIndex
  split_ifs with h1 h2 h3
  all_goals
    rw [WritePage.getElem?_insertIdx_all _ t (l.eraseIdx d) _ (by omega)]
  · rw [if_neg (by omega), if_pos rfl, h1, List.getElem?_eq_getElem hd]
  · rw [if_pos (by omega), List.getElem?_eraseIdx_of_ge l d (p - 1) (by omega)]
    have hpe : p - 1 + 1 = p := by omega
    rw [hpe]
  · rw [if_neg (by omega), if_neg (by omega)]
    have hpe : p + 1 - 1 = p := by omega
    rw [hpe, List.getElem?_eraseIdx_of_lt l d p (by omega)]
  · by_cases hpd : p < d
    · have hpt : p < t := by omega
      rw [if_pos hpt, List.getElem?_eraseIdx_of_lt l d p hpd]
    · have hdp : d < p := by omega
      have htp : t < p := by omega
      rw [if_neg (by omega), if_neg (by omega),
        List.getElem?_eraseIdx_of_ge l d (p - 1) (by omega)]
      have hpe : p - 1 + 1 = p := by omega
      rw [hpe]

theorem WritePage.dropPrimaryIndex_lt (p d t n : Nat) (hp : p < n) (hd : d < n)
    (ht : t < n) : WritePage.dropPrimaryIndex p d t < n := by
  unfold WritePage.dropPrimaryIndex
  split_ifs <;> omega

theorem WritePage.removeImage_primary_bounds {α : Type} (s : WritePage.ImagesState α)
    (i : Nat) (hp : s.primaryImageIndex < s.uploadedImages.length) :
    ((WritePage.removeImage s i).uploadedImages = [] →
      (WritePage.removeImage s i).primaryImageIndex = 0) ∧
    ((WritePage.removeImage s i).uploadedImages ≠ [] →
      (WritePage.removeImage s i).primaryImageIndex <
        (WritePage.removeImage s i).uploadedImages.length) := by
  simp only [WritePage.removeImage]
  constructor
  · intro h
    split_ifs with hz h2 h3 <;> simp_all
  · intro h
    have hne : (s.uploadedImages.eraseIdx i).length ≠ 0 :=
      fun hz => h (List.length_eq_zero.mp hz)
    by_cases hi : i < s.uploadedImages.length
    · have hlen : (s.uploadedImages.eraseIdx i).length = s.uploadedImages.length - 1 := by
        rw [List.length_eraseIdx, if_pos hi]
      split_ifs with hz h2 h3 <;> omega
    · have hlen : s.uploadedImages.eraseIdx i = s.uploadedImages :=
        List.eraseIdx_of_length_le (by omega)
      rw [hlen] at hne ⊢
      split_ifs with hz h2 h3 <;> omega

/-- **C6**: after every drag-and-drop reorder of the write page's
`uploadedImages`, the new array is a permutation of the old one, the primary
index is re-derived so that the previously designated primary image object is
still the designated primary afterwards, and after every reorder or removal
the primary index stays within `[0, length)` (0 when the array is empty);
with no drag in progress the drop handler changes nothing. -/
theorem c6_drag_reorder_invariants :
    (∀ (α : Type) (s : WritePage.ImagesState α) (d t : Nat),
        d < s.uploadedImages.length → t < s.uploadedImages.length →
        (WritePage.dropHandler s (some d) t).uploadedImages.Perm s.uploadedImages) ∧
    (∀ (α : Type) (s : WritePage.ImagesState α) (d t : Nat),
        d < s.uploadedImages.length → t < s.uploadedImages.length →
        s.primaryImageIndex < s.uploadedImages.length →
        (WritePage.dropHandler s (some d) t).uploadedImages[
            (WritePage.dropHandler s (some d) t).primaryImageIndex]? =
          s.uploadedImages[s.primaryImageIndex]?) ∧
    (∀ (α : Type) (s : WritePage.ImagesState α) (d t : Nat),
        d < s.uploadedImages.length → t < s.uploadedImages.length →
        s.primaryImageIndex < s.uploadedImages.length →
        (WritePage.dropHandler s (some d) t).primaryImageIndex <
          (WritePage.dropHandler s (some d) t).uploadedImages.length) ∧
    (∀ (α : Type) (s : WritePage.ImagesState α) (i : Nat),
        s.primaryImageIndex < s.uploadedImages.length →
        ((WritePage.removeImage s i).uploadedImages = [] →
          (WritePage.removeImage s i).primaryImageIndex = 0) ∧
        ((WritePage.removeImage s i).uploadedImages ≠ [] →
          (WritePage.removeImage s i).primaryImageIndex <
            (WritePage.removeImage s i).uploadedImages.length)) ∧
    (∀ (α : Type) (s : WritePage.ImagesState α) (t : Nat),
        WritePage.dropHandler s none t = s) :=
  ⟨fun α s d t hd ht => by
      simp only [WritePage.dropHandler]
      split_ifs with he
      · exact .refl _
      · exact WritePage.dropReorder_perm _ d t hd ht,
    fun α s d t hd ht hp => by
      simp only [WritePage.dropHandler]
      split_ifs with he
      · rfl
      · exact WritePage.dropReorder_primary _ _ d t hd ht hp,
    fun α s d t hd ht hp => by
      simp only [WritePage.dropHandler]
      split_ifs with he
      · exact hp
      · rw [WritePage.dropReorder_length _ d t hd ht]
        exact WritePage.dropPrimaryIndex_lt _ d t _ hp hd ht,
    fun α s i hp => WritePage.removeImage_primary_bounds s i hp,
    fun α s t => rfl⟩

/-- Witness for C6 at concrete inputs (drag index 0 onto index 2 in a
three-image list whose primary is index 1; remove the only image of a
one-image list). -/
theorem c6_drag_reorder_invariants_witness :
    (WritePage.dropHandler (⟨[10, 20, 30], 1⟩ : WritePage.ImagesState Nat)
        (some 0) 2).uploadedImages.Perm [10, 20, 30] ∧
    ((WritePage.dropHandler (⟨[10, 20, 30], 1⟩ : WritePage.ImagesState Nat)
        (some 0) 2).uploadedImages[
        (WritePage.dropHandler (⟨[10, 20, 30], 1⟩ : WritePage.ImagesState Nat)
          (some 0) 2).primaryImageIndex]? =
      ([10, 20, 30] : List Nat)[1]?) ∧
    ((WritePage.removeImage (⟨[7], 0⟩ : WritePage.ImagesState Nat) 0).uploadedImages = [] →
      (WritePage.removeImage (⟨[7], 0⟩ : WritePage.ImagesState Nat) 0).primaryImageIndex = 0) :=
  ⟨c6_drag_reorder_invariants.1 Nat ⟨[10, 20, 30], 1⟩ 0 2 (by decide) (by decide),
    c6_drag_reorder_invariants.2.1 Nat ⟨[10, 20, 30], 1⟩ 0 2 (by decide) (by decide)
      (by decide),
    (c6_drag_reorder_invariants.2.2.2.1 Nat ⟨[7], 0⟩ 0 (by decide)).1⟩

theorem WritePage.hexVal_hexDigitChar (n : Nat) (h : n < 16) :
    WritePage.hexVal (WritePage.hexDigitChar n) = some n := by
  interval_cases n <;> decide

theorem WritePage.expectPrefix_append (p r : List Char) :
    WritePage.expectPrefix p (p ++ r) = some r := by
  simp [WritePage.expectPrefix, List.isPrefixOf_iff_prefix]

set_option maxHeartbeats 1600000 in
theorem WritePage.parseJsonString_escString :
    ∀ (cs rest : List Char),
      WritePage.parseJsonString (cs.flatMap WritePage.escChar ++ '"' :: rest) =
        some (cs, rest)
  | [], rest => by
    simp [WritePage.parseJsonString]
  | c :: cs, rest => by
    have ih := WritePage.parseJsonString_escString cs rest
    rw [List.flatMap_cons, List.append_assoc]
    by_cases h1 : c = '"'
    · subst h1
      rw [show WritePage.escChar '"' = ['\\', '"'] from rfl]
      simp [WritePage.parseJsonString, WritePage.unescCode, ih]
    · by_cases h2 : c = '\\'
      · subst h2
        rw [show WritePage.escChar '\\' = ['\\', '\\'] from rfl]
        simp [WritePage.parseJsonString, WritePage.unescCode, ih]
      · by_cases h3 : c = '\x08'
        · subst h3
          rw [show WritePage.escChar '\x08' = ['\\', 'b'] from rfl]
          simp [WritePage.parseJsonString, WritePage.unescCode, ih]
        · by_cases h4 : c = '\t'
          · subst h4
            rw [show WritePage.escChar '\t' = ['\\', 't'] from rfl]
            simp [WritePage.parseJsonString, WritePage.unescCode, ih]
          · by_cases h5 : c = '\n'
            · subst h5
              rw [show WritePage.escChar '\n' = ['\\', 'n'] from rfl]
              simp [WritePage.parseJsonString, WritePage.unescCode, ih]
            · by_cases h6 : c = '\x0c'
              · subst h6
                rw [show WritePage.escChar '\x0c' = ['\\', 'f'] from rfl]
                simp [WritePage.parseJsonString, WritePage.unescCode, ih]
              · by_cases h7 : c = '\r'
                · subst h7
                  rw [show WritePage.escChar '\r' = ['\\', 'r'] from rfl]
                  simp [WritePage.parseJsonString, WritePage.unescCode, ih]
                · by_cases h8 : c.toNat < 32
                  · have hesc : WritePage.escChar c = ['\\', 'u', '0', '0',
                        WritePage.hexDigitChar (c.toNat / 16),
                        WritePage.hexDigitChar (c.toNat % 16)] := by
                      simp [WritePage.escChar, h1, h2, h3, h4, h5, h6, h7, h8]
                    rw [hesc]
                    have hq : c.toNat / 16 < 16 := by omega
                    have hr : c.toNat % 16 < 16 := by omega
                    have h0 : WritePage.hexVal '0' = some 0 := rfl
                    have hv : c.toNat / 16 * 16 + c.toNat % 16 = c.toNat := by
                      omega
                    simp [WritePage.parseJsonString, h0,
                      WritePage.hexVal_hexDigitChar _ hq,
                      WritePage.hexVal_hexDigitChar _ hr, ih, hv, Char.ofNat_toNat]
                  · have hesc : WritePage.escChar c = [c] := by
                      simp [WritePage.escChar, h1, h2, h3, h4, h5, h6, h7, h8]
                    rw [hesc]
                    simp [WritePage.parseJsonString, h1, h2, ih]

theorem WritePage.string_data_mk (l : List Char) : (String.mk l).data = l := rfl

theorem WritePage.expectPrefix_self (p : List Char) :
    WritePage.expectPrefix p p = some [] := by
  have h := WritePage.expectPrefix_append p []
  rwa [List.append_nil] at h

theorem WritePage.jsonDraft_roundtrip (d : WritePage.Draft) :
    WritePage.parseDraftString (WritePage.jsonStringifyDraft d) = some d := by
  unfold WritePage.parseDraftString WritePage.jsonStringifyDraft WritePage.escString
  rw [WritePage.string_data_mk]
  simp only [List.append_assoc, List.cons_append]
  simp [WritePage.expectPrefix, List.isPrefixOf,
    WritePage.parseJsonString_escString]

/-- **C8**: saving a draft (with the title or the content non-empty, e.g.
title `"hello"`) and then loading it restores exactly the saved title and
content strings from the fixed key `anoo_post_draft`, and a successful post
submission removes that key (a failed submission leaves the storage
untouched). -/
theorem c8_draft_roundtrip :
    (∀ (st : WritePage.Storage) title content savedAt,
        ¬ (title = "" ∧ content = "") →
        (WritePage.loadDraft (WritePage.saveDraft st title content savedAt)).2 =
          some ⟨title, content, savedAt⟩) ∧
    (∀ (st : WritePage.Storage) title content savedAt,
        ¬ (title = "" ∧ content = "") →
        WritePage.saveDraft st title content savedAt WritePage.DRAFT_STORAGE_KEY =
          some (WritePage.jsonStringifyDraft ⟨title, content, savedAt⟩)) ∧
    (∀ (st : WritePage.Storage) (pid : Int),
        WritePage.handleSubmitDraft st (some pid) WritePage.DRAFT_STORAGE_KEY = none) ∧
    (∀ (st : WritePage.Storage), WritePage.handleSubmitDraft st none = st) :=
  ⟨fun st title content savedAt h => by
      simp [WritePage.saveDraft, h, WritePage.loadDraft, WritePage.storageSet,
        WritePage.jsonDraft_roundtrip],
    fun st title content savedAt h => by
      simp [WritePage.saveDraft, h, WritePage.storageSet],
    fun st pid => by
      simp [WritePage.handleSubmitDraft, WritePage.clearDraft, WritePage.storageRemove],
    fun st => rfl⟩

/-- Witness for C8 at concrete inputs. -/
theorem c8_draft_roundtrip_witness :
    (WritePage.loadDraft (WritePage.saveDraft (fun _ => none) "hello" "dear diary"
        "2026-10-11T00:00:00.000Z")).2 =
      some ⟨"hello", "dear diary", "2026-10-11T00:00:00.000Z"⟩ :=
  c8_draft_roundtrip.1 (fun _ => none) "hello" "dear diary"
    "2026-10-11T00:00:00.000Z" (by decide)

theorem Layout.cleanup_clears (s : Layout.ModalState) (h : Layout.Inv s) :
    Layout.cleanupModalHandlers s =
      { listeners := [], currentModalHandlers := none, nextGen := s.nextGen,
        overlayHidden := s.overlayHidden } := by
  unfold Layout.Inv at h
  unfold Layout.cleanupModalHandlers
  cases hc : s.currentModalHandlers with
  | none =>
    rw [hc] at h
    cases s
    simp_all
  | some g =>
    rw [hc] at h
    obtain ⟨oc, occ, hl⟩ := h
    cases s
    simp_all [Layout.fourListeners]

theorem Layout.openModal_eq (s : Layout.ModalState) (oc occ : Option Nat)
    (h : Layout.Inv s) :
    Layout.openModal s oc occ true =
      { listeners := Layout.fourListeners s.nextGen oc occ
        currentModalHandlers := some s.nextGen
        nextGen := s.nextGen + 1
        overlayHidden := false } := by
  unfold Layout.openModal
  rw [Layout.cleanup_clears s h]
  simp

theorem Layout.openModal_inv (s : Layout.ModalState) (oc occ : Option Nat)
    (h : Layout.Inv s) : Layout.Inv (Layout.openModal s oc occ true) := by
  rw [Layout.openModal_eq s oc occ h]
  exact ⟨oc, occ, rfl⟩

theorem Layout.clickConfirm_inv (s : Layout.ModalState) (g : Nat)
    (oc occ : Option Nat) (hc : s.currentModalHandlers = some g)
    (hl : s.listeners = Layout.fourListeners g oc occ) :
    Layout.clickConfirm s =
      (oc.toList,
        { listeners := [], currentModalHandlers := none, nextGen := s.nextGen,
          overlayHidden := true }) := by
  unfold Layout.clickConfirm
  rw [hl]
  simp only [Layout.fourListeners, List.filter]
  simp [Layout.fireList, hl, Layout.fourListeners, Layout.closeModal,
    Layout.cleanupModalHandlers, hc]

theorem Layout.clickCancel_inv (s : Layout.ModalState) (g : Nat)
    (oc occ : Option Nat) (hc : s.currentModalHandlers = some g)
    (hl : s.listeners = Layout.fourListeners g oc occ) :
    Layout.clickCancel s =
      (occ.toList,
        { listeners := [], currentModalHandlers := none, nextGen := s.nextGen,
          overlayHidden := true }) := by
  unfold Layout.clickCancel
  rw [hl]
  simp only [Layout.fourListeners, List.filter]
  simp [Layout.fireList, hl, Layout.fourListeners, Layout.closeModal,
    Layout.cleanupModalHandlers, hc]

/-- **C7**: each `openModal` call first removes the listeners registered by
the previous call (the state invariant — exactly the most recent call's four
listeners present — is preserved), so after opening a second modal while one
is open, only the second call's listeners remain; clicking confirm then
invokes only the most recently supplied `onConfirm`, exactly once, and closes
the modal (overlay hidden, all listeners removed), and cancel likewise
invokes at most the most recent `onCancel` and closes the modal. -/
theorem c7_modal_single_listener :
    (∀ (s : Layout.ModalState) oc occ, Layout.Inv s →
        Layout.Inv (Layout.openModal s oc occ true)) ∧
    (∀ (s : Layout.ModalState) oc1 occ1 oc2 occ2, Layout.Inv s →
        (Layout.openModal (Layout.openModal s oc1 occ1 true) oc2 occ2 true).listeners =
          Layout.fourListeners (s.nextGen + 1) oc2 occ2) ∧
    (∀ (s : Layout.ModalState) oc1 occ1 oc2 occ2, Layout.Inv s →
        Layout.clickConfirm
            (Layout.openModal (Layout.openModal s oc1 occ1 true) oc2 occ2 true) =
          (oc2.toList,
            { listeners := [], currentModalHandlers := none,
              nextGen := s.nextGen + 2, overlayHidden := true })) ∧
    (∀ (s : Layout.ModalState) oc1 occ1 oc2 occ2, Layout.Inv s →
        Layout.clickCancel
            (Layout.openModal (Layout.openModal s oc1 occ1 true) oc2 occ2 true) =
          (occ2.toList,
            { listeners := [], currentModalHandlers := none,
              nextGen := s.nextGen + 2, overlayHidden := true })) :=
  ⟨Layout.openModal_inv,
    fun s oc1 occ1 oc2 occ2 h => by
      rw [Layout.openModal_eq _ oc2 occ2 (Layout.openModal_inv s oc1 occ1 h),
        Layout.openModal_eq s oc1 occ1 h],
    fun s oc1 occ1 oc2 occ2 h => by
      rw [Layout.openModal_eq _ oc2 occ2 (Layout.openModal_inv s oc1 occ1 h),
        Layout.openModal_eq s oc1 occ1 h]
      exact Layout.clickConfirm_inv _ (s.nextGen + 1) oc2 occ2 rfl rfl,
    fun s oc1 occ1 oc2 occ2 h => by
      rw [Layout.openModal_eq _ oc2 occ2 (Layout.openModal_inv s oc1 occ1 h),
        Layout.openModal_eq s oc1 occ1 h]
      exact Layout.clickCancel_inv _ (s.nextGen + 1) oc2 occ2 rfl rfl⟩

/-- Witness for C7 at concrete inputs: from the pristine page state, open a
modal with callback 1, then a second with callback 2; confirm fires exactly
`[2]` and closes the modal. -/
theorem c7_modal_single_listener_witness :
    Layout.clickConfirm
        (Layout.openModal
          (Layout.openModal ⟨[], none, 0, true⟩ (some 1) none true)
          (some 2) none true) =
      ([2],
        { listeners := [], currentModalHandlers := none, nextGen := 2,
          overlayHidden := true }) :=
  c7_modal_single_listener.2.2.1 ⟨[], none, 0, true⟩ (some 1) none (some 2) none rfl
